import Mathlib

/-!
Verification of the Smart Quest System pipeline (smart_quest_system.py).

This file gives a shallow embedding of the quest-generation pipeline:
the data model (`UserFeedback`, `ExpertDocument`, `Quest`), the mock
collaborators (`OpenSearchClient`, `KendraClient`, `StrandsAgentSystem`,
`DynamoDBClient`, `RAGQuestGenerator`) and the orchestrator
(`SmartQuestSystem.process_user_feedback`), and proves properties about
them.

Conventions of the embedding:
- Python `float` scores are embedded as `ℚ`; every score literal in the
  source is a short decimal, and all comparisons performed by the code
  are between such literals, where rational and IEEE ordering agree.
- Python mutable state (the OpenSearch in-memory document list and the
  DynamoDB in-memory dict) is threaded explicitly through a
  `SystemState` value.
- The only metadata key the pipeline reads or writes on a document is
  the string key similarity_score (`metadata.get` with default `0.0`,
  and the in-place write performed by `find_similar_documents`); it is
  embedded as the `similarity_score : Option ℚ` field of
  `ExpertDocument`, `none` meaning the key is absent.
- The orchestrator wraps every stage call in `try/except`. The mock
  collaborators are pure, so to reason about the handlers each `await`
  boundary is given a failure switch in a `StageOracle`; a stage whose
  switch is off raises before performing its effect, exactly the
  situation the source's `except` blocks handle. `datetime.now()` is an
  external input and is carried by the oracle as the two formatted
  strings the source derives from it.
-/

/-- Embeds the `UserFeedback` dataclass. -/
structure UserFeedback where
  content : String
  timestamp : String
  user_id : Option String := none
  category_hint : Option String := none
deriving Repr, DecidableEq

/-- Embeds the `ExpertDocument` dataclass.  `similarity_score` embeds the
metadata entry under the key similarity_score (absent = `none`); the other
metadata entries are never read by the pipeline logic and are omitted. -/
structure ExpertDocument where
  document_id : String
  topic : String
  content : String
  similarity_score : Option ℚ := none
  quality_score : ℚ
  created_at : String
deriving Repr, DecidableEq

/-- Embeds the `Quest` dataclass. -/
structure Quest where
  title : String
  if_condition : String
  then_action : String
  estimated_time : String
  difficulty : String
  success_metric : String
  rag_evidence : String
deriving Repr, DecidableEq

/-- Embeds one entry of the Kendra mock source dictionaries. -/
structure TrustedSource where
  title : String
  content : String
  source : String
  confidence : String
deriving Repr, DecidableEq

/-- Python substring membership on char lists: `sub in s`. -/
def charsContain (sub : List Char) : List Char → Bool
  | [] => sub.isEmpty
  | c :: rest => sub.isPrefixOf (c :: rest) || charsContain sub rest

/-- Python `sub in s` for strings. -/
def containsSub (s sub : String) : Bool := charsContain sub.data s.data

/-- Python `str.lower`, as a character-wise map over the string's characters
(the source lowers its inputs before the keyword scans; on the Korean keyword
alphabet lowering is the identity). -/
def strToLower (s : String) : String := String.mk (s.data.map Char.toLower)

/-- Score literal helper: the source writes scores as decimal float literals
(all exact hundredths); `pct n` is the rational n/100, so `pct 85` embeds the
literal `0.85`, `pct 90` embeds `0.9`, and so on.  (`mkRat` is used rather
than the decimal literal notation because the latter elaborates through an
irreducible definition that blocks concrete evaluation.) -/
def pct (n : Nat) : ℚ := mkRat n 100

/-- Keyword list for health in `SmartQuestSystem._determine_category`. -/
def sqs_health_keywords : List String :=
  ["목", "어깨", "허리", "통증", "건강", "운동", "스트레칭", "몸"]

/-- Keyword list for finance in `SmartQuestSystem._determine_category`. -/
def sqs_finance_keywords : List String :=
  ["돈", "예산", "투자", "저축", "재정", "금융", "주식", "펀드"]

/-- Keyword list for skincare in `SmartQuestSystem._determine_category`. -/
def sqs_skincare_keywords : List String :=
  ["피부", "스킨케어", "화장품", "세안", "로션", "크림", "여드름"]

/-- Embeds `SmartQuestSystem._determine_category` (the orchestrator's
classifier). -/
def determine_category (content : String) : String :=
  let content_lower := strToLower content
  if sqs_health_keywords.any (fun k => containsSub content_lower k) then ("health")
  else if sqs_finance_keywords.any (fun k => containsSub content_lower k) then ("finance")
  else if sqs_skincare_keywords.any (fun k => containsSub content_lower k) then ("skincare")
  else ("health")

/-- Embeds `StrandsAgentSystem._determine_category` (the synthesizer's
classifier). -/
def strands_determine_category (content : String) : String :=
  let content_lower := strToLower content
  if (["목", "어깨", "허리", "통증", "건강", "운동", "스트레칭"] : List String).any
      (fun w => containsSub content_lower w) then ("health")
  else if (["돈", "예산", "투자", "저축", "재정", "금융"] : List String).any
      (fun w => containsSub content_lower w) then ("finance")
  else if (["피부", "스킨케어", "화장품", "여드름"] : List String).any
      (fun w => containsSub content_lower w) then ("skincare")
  else ("health")

/-- Embeds `SmartQuestSystem._create_fallback_quest` (the feedback argument is
used only through its `content`). -/
def create_fallback_quest (content : String) : List Quest :=
  let category := determine_category content
  [ { title := "기본 " ++ category ++ " 실천하기"
      if_condition := "하루 중 적절한 시간에"
      then_action := category ++ " 관련 기본 행동 실행"
      estimated_time := "10분"
      difficulty := "쉬움"
      success_metric := "일일 실행 여부"
      rag_evidence := "기본 권장사항" } ]

/-- Embeds `OpenSearchClient._calculate_mock_similarity`. -/
def calculate_mock_similarity (query content : String) : ℚ :=
  let query_lower := strToLower query
  let content_lower := strToLower content
  if containsSub query_lower ("목") && containsSub content_lower ("목") then (pct 90)
  else if containsSub query_lower ("통증") && containsSub content_lower ("통증") then (pct 85)
  else if containsSub query_lower ("운동") &&
      (containsSub content_lower ("운동") || containsSub content_lower ("스트레칭")) then (pct 80)
  else if containsSub query_lower ("예산") && containsSub content_lower ("예산") then (pct 90)
  else if containsSub query_lower ("돈") &&
      (containsSub content_lower ("예산") || containsSub content_lower ("재정")) then (pct 85)
  else if containsSub query_lower ("피부") && containsSub content_lower ("피부") then (pct 90)
  else if containsSub query_lower ("여드름") && containsSub content_lower ("여드름") then (pct 95)
  else (pct 30)

/-- Embeds `SmartQuestSystem._evaluate_similarity`: decide whether the
documents found are sufficient (the feedback argument of the source is unused
there and omitted here). -/
def evaluate_similarity (similar_docs : List ExpertDocument) : Bool :=
  match similar_docs with
  | [] => false
  | best_match :: _ =>
    let similarity_score := best_match.similarity_score.getD (pct 0)
    if similarity_score ≥ (pct 85) then true
    else if similarity_score ≥ (pct 70) then decide (2 ≤ similar_docs.length)
    else false

/-- Sort key used by `find_similar_documents`: the metadata entry written just
before sorting (`x.metadata` indexed at similarity_score). -/
def simKey (d : ExpertDocument) : ℚ := d.similarity_score.getD (pct 0)

/-- Stable insertion into a list sorted by decreasing `simKey`: the new element
goes after existing elements with an equal key, matching the stability of the
Python `list.sort`. -/
def insertBySimDesc (d : ExpertDocument) : List ExpertDocument → List ExpertDocument
  | [] => [d]
  | e :: es => if simKey e < simKey d then d :: e :: es else e :: insertBySimDesc d es

/-- Stable sort by decreasing `simKey`, embedding
`results.sort(key=..., reverse=True)`. -/
def sortBySimDesc (l : List ExpertDocument) : List ExpertDocument :=
  l.foldl (fun acc d => insertBySimDesc d acc) []

/-- The loop body of `find_similar_documents`: walk the stored documents; each
document whose similarity to the query reaches the threshold gets the score
written into its metadata and is collected into the result list.  The first
component is the updated store, the second the collected results; a collected
document is the same (updated) value in both, matching the Python aliasing of
the mutated document object. -/
def markAndCollect (query : String) (threshold : ℚ) :
    List ExpertDocument → List ExpertDocument × List ExpertDocument
  | [] => ([], [])
  | d :: ds =>
    let similarity := calculate_mock_similarity query d.content
    let rest := markAndCollect query threshold ds
    if similarity ≥ threshold then
      let d' := { d with similarity_score := some similarity }
      (d' :: rest.1, d' :: rest.2)
    else (d :: rest.1, rest.2)

/-- Embeds `OpenSearchClient.find_similar_documents`.  Takes the current
`mock_documents` list; returns the updated list (the in-place metadata writes
persist in the store) together with the returned results, sorted by descending
score and truncated to `limit`. -/
def find_similar_documents (docs : List ExpertDocument) (query : String)
    (threshold : ℚ) (limit : Nat) : List ExpertDocument × List ExpertDocument :=
  let step := markAndCollect query threshold docs
  (step.1, (sortBySimDesc step.2).take limit)

/-- Embeds `OpenSearchClient.index_document`: append to `mock_documents`. -/
def index_document (docs : List ExpertDocument) (document : ExpertDocument) :
    List ExpertDocument :=
  docs ++ [document]

/-- Python dict assignment `storage[k] = v` on an insertion-ordered dict:
overwrite in place when the key exists, else append. -/
def dictInsert (storage : List (String × ExpertDocument)) (k : String)
    (v : ExpertDocument) : List (String × ExpertDocument) :=
  if storage.any (fun p => p.1 == k) then
    storage.map (fun p => if p.1 == k then (k, v) else p)
  else storage ++ [(k, v)]

/-- Embeds `DynamoDBClient.save_expert_document`: store under the document's
own id and return that id. -/
def save_expert_document (storage : List (String × ExpertDocument))
    (document : ExpertDocument) : List (String × ExpertDocument) × String :=
  (dictInsert storage document.document_id document, document.document_id)

/-- The health entries of the Kendra mock source dictionary. -/
def kendra_health_sources : List TrustedSource :=
  [ { title := "Neck Pain Relief Exercises - NIH Guidelines"
      content := "The National Institute of Health recommends gentle neck rotations held for 15 seconds, performed 3-5 times daily for optimal neck pain relief."
      source := "https://www.nih.gov/neck-pain-relief"
      confidence := "VERY_HIGH" }
  , { title := "Physical Therapy for Cervical Pain - Mayo Clinic"
      content := "Mayo Clinic research shows that progressive neck strengthening exercises significantly reduce chronic neck pain when performed consistently."
      source := "https://www.mayoclinic.org/neck-exercises"
      confidence := "HIGH" } ]

/-- The finance entries of the Kendra mock source dictionary. -/
def kendra_finance_sources : List TrustedSource :=
  [ { title := "Budget Planning Guidelines - Federal Reserve"
      content := "Federal Reserve economic data supports the 50/30/20 budgeting rule for young adults: 50% needs, 30% wants, 20% savings."
      source := "https://www.federalreserve.gov/budget-guidelines"
      confidence := "VERY_HIGH" }
  , { title := "Young Adult Financial Planning - SEC"
      content := "SEC guidelines recommend starting emergency fund building and retirement savings in your 20s for long-term financial stability."
      source := "https://www.sec.gov/young-adult-finance"
      confidence := "HIGH" } ]

/-- The skincare entries of the Kendra mock source dictionary. -/
def kendra_skincare_sources : List TrustedSource :=
  [ { title := "Acne Treatment Guidelines - FDA"
      content := "FDA approved acne treatments include salicylic acid and benzoyl peroxide. Start with lower concentrations to avoid irritation."
      source := "https://www.fda.gov/acne-treatment"
      confidence := "VERY_HIGH" }
  , { title := "Dermatological Care - American Academy of Dermatology"
      content := "AAD recommends gentle cleansing twice daily and gradual introduction of active ingredients for effective acne management."
      source := "https://www.aad.org/acne-care"
      confidence := "HIGH" } ]

/-- Embeds `KendraClient.search_trusted_sources`: `mock_sources.get(category, [])`
(the query argument is printed only and does not influence the result). -/
def search_trusted_sources (category : String) : List TrustedSource :=
  if category = "health" then kendra_health_sources
  else if category = "finance" then kendra_finance_sources
  else if category = "skincare" then kendra_skincare_sources
  else []

/-- Embeds the sources-summary join inside
`StrandsAgentSystem._generate_mock_expert_content`: one line per trusted
source, the content truncated to its first 100 characters. -/
def sources_summary (trusted_sources : List TrustedSource) : String :=
  String.intercalate "\n"
    (trusted_sources.map (fun s => "- " ++ s.title ++ ": " ++ s.content.take 100 ++ "..."))

/-- Embeds `StrandsAgentSystem._generate_mock_expert_content`: the fixed
document body with the category title, the user request and the summary of the
trusted sources interpolated, then stripped of surrounding whitespace. -/
def generate_mock_expert_content (user_content : String)
    (trusted_sources : List TrustedSource) (category : String) : String :=
  let body :=
    "\n# " ++ category.capitalize ++ " 전문가 협업 문서\n\n## 사용자 요청 분석\n" ++
    user_content ++ "\n\n## 신뢰할 수 있는 최신 정보\n" ++
    sources_summary trusted_sources ++
    "\n\n## 전문가 팀 협업 결과\n\n### 1. 수석 전문가 분석\n사용자의 요청을 종합적으로 분석한 결과, 다음과 같은 접근이 필요합니다:\n- 과학적 근거 기반의 안전한 방법\n- 개인의 상황에 맞는 맞춤형 솔루션\n- 점진적이고 지속 가능한 접근\n\n### 2. 실무 전문가 권고사항\n구체적인 실행 방법:\n- 단계별 실행 계획\n- 주의사항 및 안전 수칙\n- 효과 측정 방법\n\n### 3. 검증 전문가 의견\n안전성 및 효과성 검토:\n- 과학적 근거 확인\n- 부작용 위험 평가\n- 개선 및 수정 사항\n\n## 최종 권고사항\n전문가 팀의 합의된 최종 권고사항으로, 사용자가 안전하고 효과적으로 실행할 수 있는 방법을 제시합니다.\n\n*본 문서는 " ++
    toString trusted_sources.length ++
    "개의 신뢰할 수 있는 소스와 전문가 협업을 통해 생성되었습니다.*\n        "
  body.trim

/-- Embeds `StrandsAgentSystem.create_expert_document`.  `now_stamp` and
`now_iso` are the two renderings of `datetime.now()` the source computes
(`%Y%m%d_%H%M%S` and `isoformat`); its metadata dict carries no
similarity_score key, hence `none`. -/
def create_expert_document (user_feedback : UserFeedback)
    (trusted_sources : List TrustedSource) (now_stamp now_iso : String) :
    ExpertDocument :=
  let category := strands_determine_category user_feedback.content
  { document_id := category ++ "_" ++ now_stamp
    topic := category
    content := generate_mock_expert_content user_feedback.content trusted_sources category
    similarity_score := none
    quality_score := (pct 94)
    created_at := now_iso }

/-- The health quest template list of `RAGQuestGenerator._generate_mock_quests`. -/
def health_quest_templates : List Quest :=
  [ { title := "아침 목 깨우기"
      if_condition := "매일 아침 기상 직후"
      then_action := "목을 좌우로 천천히 3회씩 돌리고 턱 당기기 10초 유지"
      estimated_time := "3분"
      difficulty := "쉬움"
      success_metric := "일주일에 5일 이상 실행"
      rag_evidence := "물리치료학회 가이드라인에 따른 15초 유지 권장사항" }
  , { title := "업무 중 목 휴식"
      if_condition := "컴퓨터 작업 2시간마다"
      then_action := "의자에서 목 스트레칭과 어깨 으쓱하기 각 10초씩"
      estimated_time := "5분"
      difficulty := "보통"
      success_metric := "하루 3회 이상 실행"
      rag_evidence := "재활의학과 전문의 권고사항" }
  , { title := "저녁 목 이완 루틴"
      if_condition := "잠자리에 들기 30분 전"
      then_action := "목 마사지와 전체 목 스트레칭 루틴 완주"
      estimated_time := "10분"
      difficulty := "어려움"
      success_metric := "주 4회 이상 지속"
      rag_evidence := "종합 목 관리 전문가 협업 문서" } ]

/-- The finance quest template list of `RAGQuestGenerator._generate_mock_quests`. -/
def finance_quest_templates : List Quest :=
  [ { title := "가계부 작성 시작"
      if_condition := "매일 저녁 식사 후"
      then_action := "하루 지출 내역을 앱에 기록하고 카테고리별 분류"
      estimated_time := "5분"
      difficulty := "쉬움"
      success_metric := "2주 연속 매일 기록"
      rag_evidence := "금융감독원 가계재정 관리 가이드" }
  , { title := "50/30/20 예산 계획"
      if_condition := "매월 첫째 주 주말"
      then_action := "월 수입 기준 예산을 50/30/20으로 계획하고 목표 설정"
      estimated_time := "30분"
      difficulty := "보통"
      success_metric := "3개월 연속 예산 달성도 80% 이상"
      rag_evidence := "연방준비제도 경제 데이터 기반 권장사항" }
  , { title := "응급자금 만들기"
      if_condition := "매월 급여일 다음날"
      then_action := "월 수입의 10%를 별도 적금에 자동이체 설정"
      estimated_time := "15분"
      difficulty := "어려움"
      success_metric := "6개월 분 생활비 적립 달성"
      rag_evidence := "SEC 젊은 성인 재정계획 가이드라인" } ]

/-- The skincare quest template list of `RAGQuestGenerator._generate_mock_quests`. -/
def skincare_quest_templates : List Quest :=
  [ { title := "기본 세안 루틴 정착"
      if_condition := "아침과 저녁 세안 시"
      then_action := "순한 세안제로 미지근한 물에 30초간 부드럽게 세안"
      estimated_time := "3분"
      difficulty := "쉬움"
      success_metric := "2주간 하루도 빠짐없이 실행"
      rag_evidence := "미국피부과학회 기본 세안 권고사항" }
  , { title := "살리실산 제품 도입"
      if_condition := "저녁 세안 후 주 2회"
      then_action := "0.5% 살리실산 제품을 문제 부위에만 점 발라 적응시키기"
      estimated_time := "5분"
      difficulty := "보통"
      success_metric := "4주간 부작용 없이 사용"
      rag_evidence := "FDA 승인 여드름 치료 성분 가이드라인" }
  , { title := "종합 여드름 관리 루틴"
      if_condition := "매일 아침, 저녁"
      then_action := "세안 → 토너 → 살리실산 제품 → 보습제 순서로 완전한 루틴"
      estimated_time := "10분"
      difficulty := "어려움"
      success_metric := "3개월 연속 피부 상태 개선"
      rag_evidence := "피부과 전문의 협업 종합 관리 프로토콜" } ]

/-- The default single generic quest of `RAGQuestGenerator._generate_mock_quests`,
returned when the category matches no template. -/
def generic_quest_default : List Quest :=
  [ { title := "기본 실천하기"
      if_condition := "적절한 시간에"
      then_action := "관련 기본 행동 실행"
      estimated_time := "5분"
      difficulty := "쉬움"
      success_metric := "꾸준한 실행"
      rag_evidence := "전문가 기본 권고사항" } ]

/-- Embeds `RAGQuestGenerator._generate_mock_quests`:
`quest_templates.get(category, [generic quest])` (the user content argument is
unused by the source body and omitted here). -/
def generate_mock_quests (category : String) : List Quest :=
  if category = "health" then health_quest_templates
  else if category = "finance" then finance_quest_templates
  else if category = "skincare" then skincare_quest_templates
  else generic_quest_default

/-- Embeds `RAGQuestGenerator.generate_from_documents`: empty input gives an
empty quest list, otherwise the quests for the first document's topic. -/
def generate_from_documents (documents : List ExpertDocument)
    (_user_feedback : UserFeedback) : List Quest :=
  match documents with
  | [] => []
  | primary_doc :: _ => generate_mock_quests primary_doc.topic

/-- Embeds the result dictionaries returned by
`SmartQuestSystem.process_user_feedback` and its helpers.  Keys absent from a
given return site are `none`; `processing_time` (always the current timestamp)
and the `expert_document` echo are omitted as they carry no decision content. -/
structure PipelineResult where
  success : Bool
  method : Option String := none
  documents_used : Option Nat := none
  document_id : Option String := none
  quests : List Quest := []
  similarity_scores : Option (List ℚ) := none
  trusted_sources_count : Option Nat := none
  error : Option String := none
  fallback_quest : Option (List Quest) := none
deriving Repr, DecidableEq

/-- The mutable state shared by the collaborators: the OpenSearch mock document
list, the DynamoDB mock storage dict, and the `system_ready` flag set by
`_initialize_components`. -/
structure SystemState where
  mock_documents : List ExpertDocument
  mock_storage : List (String × ExpertDocument)
  system_ready : Bool
deriving Repr, DecidableEq

/-- Failure switches for the `await` boundaries the orchestrator guards with
`try/except`, plus the two renderings of `datetime.now()` used by the
synthesizer.  A switch set to `false` means that stage call raises (before
performing its effect); `err` is the `str(e)` of the raised exception. -/
structure StageOracle where
  search_ok : Bool := true
  kendra_ok : Bool := true
  agent_ok : Bool := true
  save_ok : Bool := true
  index_ok : Bool := true
  rag_reuse_ok : Bool := true
  rag_synth_ok : Bool := true
  err : String := "stage failure"
  now_stamp : String := "20241214_120000"
  now_iso : String := "2024-12-14T12:00:00"
deriving Repr, DecidableEq

/-- The failure dictionary built by the `except` handlers of
`process_user_feedback` and `_create_new_expert_document_and_quest`. -/
def fallbackResult (o : StageOracle) (feedback : UserFeedback) : PipelineResult :=
  { success := false
    error := some o.err
    fallback_quest := some (create_fallback_quest feedback.content) }

/-- Embeds `SmartQuestSystem._create_new_expert_document_and_quest`: Kendra
search, expert synthesis, DynamoDB save, OpenSearch index, RAG generation, in
order; any stage failure is caught by the method's own `except` and yields the
fallback dictionary, keeping the state reached so far. -/
def create_new_expert_document_and_quest (st : SystemState) (o : StageOracle)
    (feedback : UserFeedback) : SystemState × PipelineResult :=
  if !o.kendra_ok then (st, fallbackResult o feedback)
  else
    let trusted_sources := search_trusted_sources (determine_category feedback.content)
    if !o.agent_ok then (st, fallbackResult o feedback)
    else
      let expert_document := create_expert_document feedback trusted_sources o.now_stamp o.now_iso
      if !o.save_ok then (st, fallbackResult o feedback)
      else
        let saved := save_expert_document st.mock_storage expert_document
        let st1 := { st with mock_storage := saved.1 }
        if !o.index_ok then (st1, fallbackResult o feedback)
        else
          let st2 := { st1 with mock_documents := index_document st1.mock_documents expert_document }
          if !o.rag_synth_ok then (st2, fallbackResult o feedback)
          else
            let quests := generate_from_documents [expert_document] feedback
            (st2,
              { success := true
                method := some ("new_expert_document")
                document_id := some saved.2
                quests := quests
                trusted_sources_count := some trusted_sources.length })

/-- Embeds `SmartQuestSystem._generate_quest_from_existing`: RAG generation
from the found documents; on a generation failure the `except` handler retries
through `_create_new_expert_document_and_quest`. -/
def generate_quest_from_existing (st : SystemState) (o : StageOracle)
    (similar_docs : List ExpertDocument) (feedback : UserFeedback) :
    SystemState × PipelineResult :=
  if !o.rag_reuse_ok then create_new_expert_document_and_quest st o feedback
  else
    let quests := generate_from_documents similar_docs feedback
    (st,
      { success := true
        method := some ("existing_documents")
        documents_used := some similar_docs.length
        quests := quests
        similarity_scores := some (similar_docs.map (fun d => d.similarity_score.getD 0)) })

/-- Embeds `SmartQuestSystem.process_user_feedback`: the readiness guard, the
similarity search (threshold 0.7, limit 5), the similarity evaluation, and the
dispatch to the reuse or synthesize path; a failure of the search stage is
caught by the outer `except` and yields the fallback dictionary. -/
def process_user_feedback (st : SystemState) (o : StageOracle)
    (feedback : UserFeedback) : SystemState × PipelineResult :=
  if !st.system_ready then
    (st, { success := false, error := some ("시스템이 준비되지 않았습니다.") })
  else if !o.search_ok then (st, fallbackResult o feedback)
  else
    let searched := find_similar_documents st.mock_documents feedback.content (pct 70) 5
    let st1 := { st with mock_documents := searched.1 }
    if evaluate_similarity searched.2 then
      generate_quest_from_existing st1 o searched.2 feedback
    else
      create_new_expert_document_and_quest st1 o feedback

/-- First seeded document of `OpenSearchClient._initialize_mock_data`. -/
def seed_health_doc : ExpertDocument :=
  { document_id := "health_neck_001"
    topic := "health"
    content := "목 통증 완화를 위한 전문가 가이드: 물리치료사 3명이 협업하여 작성한 종합 가이드입니다. 목을 좌우로 천천히 돌리는 스트레칭을 15초씩 3-5회 반복하면 효과적입니다."
    similarity_score := none
    quality_score := (pct 95)
    created_at := "2024-12-14T10:30:00Z" }

/-- Second seeded document of `OpenSearchClient._initialize_mock_data`. -/
def seed_finance_doc : ExpertDocument :=
  { document_id := "finance_budget_001"
    topic := "finance"
    content := "20대 직장인을 위한 예산 관리 전문가 가이드: 재정 전문가 3명이 협업하여 작성했습니다. 50/30/20 규칙을 활용하여 수입의 50%는 필수지출, 30%는 선택지출, 20%는 저축으로 배분하세요."
    similarity_score := none
    quality_score := (pct 92)
    created_at := "2024-12-14T09:15:00Z" }

/-- Third seeded document of `OpenSearchClient._initialize_mock_data`. -/
def seed_skincare_doc : ExpertDocument :=
  { document_id := "skincare_acne_001"
    topic := "skincare"
    content := "여드름 관리를 위한 피부과 전문의 가이드: 피부과 전문의와 화장품 연구원이 협업하여 작성했습니다. 순한 세안제로 하루 2회 세안하고, 살리실산 성분의 제품을 점진적으로 사용하세요."
    similarity_score := none
    quality_score := (pct 93)
    created_at := "2024-12-14T08:45:00Z" }

/-- The state right after `SmartQuestSystem.__init__`: OpenSearch seeded with
the three mock documents, DynamoDB storage empty, and `system_ready = true`
(the mock component constructors perform no fallible work, so the `except`
branch of `_initialize_components` is dead and initialization always ends with
`system_ready = True`). -/
def initState : SystemState :=
  { mock_documents := [seed_health_doc, seed_finance_doc, seed_skincare_doc]
    mock_storage := []
    system_ready := true }

/-- States of the system reachable from initialization by any sequence of
`process_user_feedback` calls, under any failure injections. -/
inductive Reachable : SystemState → Prop
  | init : Reachable initState
  | step (s : SystemState) (o : StageOracle) (fb : UserFeedback) :
      Reachable s → Reachable (process_user_feedback s o fb).1

/-- Reachability restricted to runs in which the OpenSearch indexing stage
never fails (the save and index stages then always run back to back). -/
inductive ReachableNoIndexFail : SystemState → Prop
  | init : ReachableNoIndexFail initState
  | step (s : SystemState) (o : StageOracle) (fb : UserFeedback) :
      ReachableNoIndexFail s → o.index_ok = true →
      ReachableNoIndexFail (process_user_feedback s o fb).1

/-- C1: the similarity evaluation decides REUSE (returns `true`) exactly when
the result list is non-empty and either the top score is at least 0.85, or the
top score lies in the band [0.70, 0.85) and at least 2 candidates were found;
on an empty result list (and on a top score below 0.70, by the iff) it decides
SYNTHESIZE (returns `false`). -/
theorem evaluate_similarity_gate (docs : List ExpertDocument) :
    (evaluate_similarity docs = true ↔
      ∃ best rest, docs = best :: rest ∧
        ((pct 85) ≤ best.similarity_score.getD (pct 0) ∨
          ((pct 70) ≤ best.similarity_score.getD (pct 0) ∧
            best.similarity_score.getD (pct 0) < (pct 85) ∧ 2 ≤ docs.length))) ∧
    evaluate_similarity [] = false := by
  refine ⟨?_, rfl⟩
  cases docs with
  | nil =>
    simp only [evaluate_similarity, Bool.false_eq_true, false_iff]
    rintro ⟨best, rest, heq, -⟩
    exact List.noConfusion heq
  | cons b rest =>
    simp only [evaluate_similarity]
    split_ifs with h1 h2
    · simp only [true_iff]
      exact ⟨b, rest, rfl, Or.inl h1⟩
    · rw [decide_eq_true_eq]
      constructor
      · intro hlen
        exact ⟨b, rest, rfl, Or.inr ⟨h2, lt_of_not_le h1, hlen⟩⟩
      · rintro ⟨b', rest', heq, hcase⟩
        cases heq
        rcases hcase with h | ⟨-, -, hlen⟩
        · exact absurd h h1
        · exact hlen
    · simp only [Bool.false_eq_true, false_iff]
      rintro ⟨b', rest', heq, hcase⟩
      cases heq
      rcases hcase with h | ⟨h70, -, -⟩
      · exact absurd h h1
      · exact absurd h70 h2

/-- C3: quest generation is total over any category value.  The difficulty
labels of the source templates are the Korean tiers 쉬움 (easy), 보통 (medium)
and 어려움 (hard).  An empty document list yields an empty quest list; a
non-empty list whose first document carries a known category yields exactly 3
quests, one per tier in increasing difficulty; an unknown category yields
exactly 1 easy generic quest — so for non-empty input the count is never 0, 2
or 4. -/
theorem generate_from_documents_total (docs : List ExpertDocument)
    (fb : UserFeedback) :
    (generate_from_documents docs fb).map Quest.difficulty =
      (match docs with
       | [] => []
       | d :: _ =>
         if d.topic = "health" ∨ d.topic = "finance" ∨ d.topic = "skincare"
         then ["쉬움", "보통", "어려움"] else ["쉬움"]) := by
  cases docs with
  | nil => rfl
  | cons d rest =>
    by_cases h1 : d.topic = "health"
    · simp [generate_from_documents, generate_mock_quests, h1, health_quest_templates]
    · by_cases h2 : d.topic = "finance"
      · simp [generate_from_documents, generate_mock_quests, h1, h2,
          finance_quest_templates]
      · by_cases h3 : d.topic = "skincare"
        · simp [generate_from_documents, generate_mock_quests, h1, h2, h3,
            skincare_quest_templates]
        · simp [generate_from_documents, generate_mock_quests, h1, h2, h3,
            generic_quest_default]

/-- C9 counterexample: the two category-determination functions are not equal
as functions of the input text.  On the input 주식 (a finance keyword the
synthesizer's classifier lacks) the orchestrator's classifier answers finance
while the synthesizer's classifier falls through to the health default. -/
theorem category_classifiers_disagree :
    determine_category ("주식") = "finance" ∧
    strands_determine_category ("주식") = "health" ∧
    determine_category ("주식") ≠ strands_determine_category ("주식") := by
  refine ⟨rfl, rfl, ?_⟩
  decide

/-- The keywords the orchestrator's classifier checks that the synthesizer's
classifier does not: 몸 in the health list, 주식 and 펀드 in the finance list,
세안, 로션 and 크림 in the skincare list. -/
def orchestrator_only_keywords : List String :=
  ["몸", "주식", "펀드", "세안", "로션", "크림"]

/-- C9 amended: the synthesizer's keyword lists are strict subsets of the
orchestrator's, so the two classifiers agree exactly on the common fragment:
for every text containing none of the six orchestrator-only keywords the two
category-determination functions give the same category; on texts containing
one of those keywords they can differ (see the counterexample on 주식). -/
theorem category_classifiers_agree_on_core (content : String)
    (h : orchestrator_only_keywords.all
      (fun k => !containsSub (strToLower content) k) = true) :
    determine_category content = strands_determine_category content := by
  simp only [orchestrator_only_keywords, List.all_cons, List.all_nil,
    Bool.and_eq_true, Bool.not_eq_true', and_true] at h
  obtain ⟨hbody, hstock, hfund, hwash, hlotion, hcream⟩ := h
  simp [determine_category, strands_determine_category, sqs_health_keywords,
    sqs_finance_keywords, sqs_skincare_keywords, hbody, hstock, hfund, hwash,
    hlotion, hcream]

/-- Witness for the amended C9 agreement on a concrete keyword-free-of-extras
input. -/
theorem category_classifiers_agree_on_core_witness :
    determine_category ("목이 아파요") = strands_determine_category ("목이 아파요") :=
  category_classifiers_agree_on_core ("목이 아파요") (by decide)

/-- A document used as reindexing input in the counterexamples: a fresh
synthesized-style document carrying the health category. -/
def neck_doc : ExpertDocument :=
  { document_id := "health_20241214_130000"
    topic := "health"
    content := "목 스트레칭 가이드"
    similarity_score := none
    quality_score := (pct 94)
    created_at := "2024-12-14T13:00:00" }

/-- C5 counterexample: calling `index_document` twice with the same document
(same identifier) leaves two distinct searchable entries for that identifier,
not one — re-adding appends rather than overwriting. -/
theorem reindex_idempotence_counterexample :
    ((index_document (index_document initState.mock_documents neck_doc) neck_doc).countP
      (fun d => d.document_id == neck_doc.document_id)) = 2 := by
  decide

/-- C5 amended: `index_document` is a plain append, hence not idempotent per
identifier: indexing the same document twice adds exactly two entries for its
identifier on top of whatever the store already held. -/
theorem index_document_appends (docs : List ExpertDocument) (d : ExpertDocument) :
    index_document docs d = docs ++ [d] ∧
    (index_document (index_document docs d) d).countP
        (fun e => e.document_id == d.document_id)
      = docs.countP (fun e => e.document_id == d.document_id) + 2 := by
  refine ⟨rfl, ?_⟩
  simp [index_document, List.countP_append, List.countP_cons]

/-- A document whose body contains none of the similarity keywords, so its
self-similarity is the default low score. -/
def plain_doc : ExpertDocument :=
  { document_id := "health_plain_001"
    topic := "health"
    content := "hello world"
    similarity_score := none
    quality_score := (pct 90)
    created_at := "2024-12-14T12:00:00" }

/-- C4 counterexample: the round trip fails and identical strings do not score
1.0.  After saving `plain_doc` and reindexing it, a search whose query equals
the document's own body does not return it at all: the similarity function
scores the identical strings 0.3, which is below the 0.7 search threshold, so
the result list is empty. -/
theorem roundtrip_identity_counterexample :
    calculate_mock_similarity plain_doc.content plain_doc.content = (pct 30) ∧
    (save_expert_document initState.mock_storage plain_doc).2 = plain_doc.document_id ∧
    (find_similar_documents (index_document initState.mock_documents plain_doc)
      plain_doc.content (pct 70) 5).2 = [] := by
  refine ⟨by decide, rfl, by decide⟩

/-- C4 amended: the self-similarity of any string under the keyword-table
scorer is at most 0.95 and hence never 1.0; a saved-and-reindexed document is
returned by a search on its own body only when the body contains a matched
keyword, and then at the keyword-table score.  Concretely, a body containing
the keyword 목 self-scores 0.9, and the saved-and-reindexed `neck_doc` is
returned by the search on its own body with score 0.9 (not 1.0). -/
theorem roundtrip_amended :
    (∀ s : String, calculate_mock_similarity s s ≤ (pct 95)) ∧
    (∀ doc : ExpertDocument, containsSub (strToLower doc.content) ("목") = true →
      calculate_mock_similarity doc.content doc.content = (pct 90)) ∧
    (save_expert_document initState.mock_storage neck_doc).2 = neck_doc.document_id ∧
    ((find_similar_documents (index_document initState.mock_documents neck_doc)
        neck_doc.content (pct 70) 5).2.map (fun d => (d.document_id, d.similarity_score)))
      = [(seed_health_doc.document_id, some (pct 90)), (neck_doc.document_id, some (pct 90))] := by
  refine ⟨?_, ?_, rfl, by decide⟩
  · intro s
    unfold calculate_mock_similarity
    dsimp only
    split_ifs <;> decide
  · intro doc h
    simp [calculate_mock_similarity, h]

/-- The updated store returned by the search loop: every document whose
similarity to the query reaches the threshold has the score written into its
metadata entry; the other documents are returned unchanged (keeping any score
from an earlier search). -/
theorem markAndCollect_fst_eq_map (query : String) (threshold : ℚ)
    (docs : List ExpertDocument) :
    (markAndCollect query threshold docs).1 =
      docs.map (fun d =>
        if calculate_mock_similarity query d.content ≥ threshold then
          { d with similarity_score := some (calculate_mock_similarity query d.content) }
        else d) := by
  induction docs with
  | nil => rfl
  | cons d ds ih =>
    simp only [markAndCollect, List.map_cons]
    split_ifs with h <;> simp [ih]

/-- C8 counterexample: a search call does not leave the stored documents
unchanged — the per-query similarity score is written into the matched
document's metadata and is still there after the call returns.  Before the
call no stored document carries a similarity score; after searching 목이 아파요
the stored neck document carries `some 0.9`. -/
theorem search_mutation_counterexample :
    initState.mock_documents.map (fun d => d.similarity_score)
      = [none, none, none] ∧
    ((find_similar_documents initState.mock_documents ("목이 아파요") (pct 70) 5).1.map
      (fun d => d.similarity_score)) = [some (pct 90), none, none] ∧
    (find_similar_documents initState.mock_documents ("목이 아파요") (pct 70) 5).1
      ≠ initState.mock_documents := by
  refine ⟨rfl, by decide, by decide⟩

/-- C8 amended: a search call annotates the store in place: afterwards every
document whose similarity to the query reached the threshold carries that
per-query score in its metadata (persisting across calls until a later search
overwrites it), and every other document is unchanged. -/
theorem find_similar_documents_annotates_store (docs : List ExpertDocument)
    (query : String) (threshold : ℚ) (limit : Nat) :
    (find_similar_documents docs query threshold limit).1 =
      docs.map (fun d =>
        if calculate_mock_similarity query d.content ≥ threshold then
          { d with similarity_score := some (calculate_mock_similarity query d.content) }
        else d) := by
  simpa [find_similar_documents] using markAndCollect_fst_eq_map query threshold docs

/-- Feedback whose content matches the seeded neck-pain document at score 0.9,
so the orchestrator takes the reuse path on the initial state. -/
def fb_neck : UserFeedback :=
  { content := "목이 아파요", timestamp := "2024-12-14T12:00:00" }

/-- Oracle injecting a failure at exactly the reuse-path RAG generation stage;
all other stages succeed. -/
def rag_reuse_fail_oracle : StageOracle := { rag_reuse_ok := false }

/-- C6 counterexample: a failure raised during the REUSE path's
quest-generation step does not produce the fallback PipelineResult.  On the
initial state with feedback 목이 아파요 (reuse decision) and a failing reuse
generation stage, the orchestrator reroutes into the synthesize path, which
succeeds: the result has `success = true`, method new_expert_document, and no
error or fallback quest set. -/
theorem reuse_failure_reroute_counterexample :
    (process_user_feedback initState rag_reuse_fail_oracle fb_neck).2.success = true ∧
    (process_user_feedback initState rag_reuse_fail_oracle fb_neck).2.method
      = some ("new_expert_document") ∧
    (process_user_feedback initState rag_reuse_fail_oracle fb_neck).2.fallback_quest
      = none ∧
    (process_user_feedback initState rag_reuse_fail_oracle fb_neck).2.error = none := by
  refine ⟨rfl, rfl, rfl, rfl⟩

/-- C6 amended: a failure raised during the REUSE path's quest-generation step
makes the orchestrator retry through the synthesize path
(`_create_new_expert_document_and_quest`); the fallback PipelineResult is
produced only if that path then fails too. -/
theorem reuse_failure_retries_synthesize (st : SystemState) (o : StageOracle)
    (similar_docs : List ExpertDocument) (feedback : UserFeedback)
    (h : o.rag_reuse_ok = false) :
    generate_quest_from_existing st o similar_docs feedback
      = create_new_expert_document_and_quest st o feedback := by
  simp [generate_quest_from_existing, h]

/-- Witness for the amended C6 on a concrete failing oracle. -/
theorem reuse_failure_retries_synthesize_witness :
    generate_quest_from_existing initState rag_reuse_fail_oracle [] fb_neck
      = create_new_expert_document_and_quest initState rag_reuse_fail_oracle fb_neck :=
  reuse_failure_retries_synthesize initState rag_reuse_fail_oracle [] fb_neck rfl

/-- The synthesize path never changes the readiness flag. -/
theorem create_new_preserves_ready (st : SystemState) (o : StageOracle)
    (fb : UserFeedback) :
    (create_new_expert_document_and_quest st o fb).1.system_ready
      = st.system_ready := by
  unfold create_new_expert_document_and_quest
  dsimp only
  split_ifs <;> rfl

/-- The reuse path never changes the readiness flag. -/
theorem generate_quest_from_existing_preserves_ready (st : SystemState)
    (o : StageOracle) (docs : List ExpertDocument) (fb : UserFeedback) :
    (generate_quest_from_existing st o docs fb).1.system_ready
      = st.system_ready := by
  unfold generate_quest_from_existing
  dsimp only
  split_ifs
  · exact create_new_preserves_ready st o fb
  · rfl

/-- Processing feedback never changes the readiness flag. -/
theorem process_preserves_ready (s : SystemState) (o : StageOracle)
    (fb : UserFeedback) :
    (process_user_feedback s o fb).1.system_ready = s.system_ready := by
  unfold process_user_feedback
  dsimp only
  split_ifs
  · rfl
  · rfl
  · exact generate_quest_from_existing_preserves_ready _ o _ fb
  · exact create_new_preserves_ready _ o fb

/-- Every reachable state has the readiness flag set: initialization sets it
and processing preserves it, so the not-ready early return of
`process_user_feedback` is dead on reachable states. -/
theorem reachable_system_ready (s : SystemState) (h : Reachable s) :
    s.system_ready = true := by
  induction h with
  | init => rfl
  | step s o fb _ ih => rw [process_preserves_ready]; exact ih

/-- A synthesize-path run that does not succeed returns exactly the fallback
dictionary. -/
theorem create_new_failure_shape (st : SystemState) (o : StageOracle)
    (fb : UserFeedback)
    (h : (create_new_expert_document_and_quest st o fb).2.success = false) :
    (create_new_expert_document_and_quest st o fb).2 = fallbackResult o fb := by
  unfold create_new_expert_document_and_quest at h ⊢
  dsimp only at h ⊢
  split_ifs at h ⊢ <;> rfl

/-- On a ready state, a processing run that reports failure returns exactly
the fallback dictionary. -/
theorem process_failure_shape (s : SystemState) (o : StageOracle)
    (fb : UserFeedback) (hready : s.system_ready = true)
    (h : (process_user_feedback s o fb).2.success = false) :
    (process_user_feedback s o fb).2 = fallbackResult o fb := by
  cases hsearch : o.search_ok with
  | false => simp [process_user_feedback, hready, hsearch]
  | true =>
    simp only [process_user_feedback, hready, hsearch, Bool.not_true,
      Bool.not_false, Bool.false_eq_true, if_false, if_true] at h ⊢
    by_cases heval :
        evaluate_similarity
          (find_similar_documents s.mock_documents fb.content (pct 70) 5).2 = true
    · rw [if_pos heval] at h ⊢
      unfold generate_quest_from_existing at h ⊢
      cases hr : o.rag_reuse_ok with
      | false =>
        simp only [hr, Bool.not_false, if_true] at h ⊢
        exact create_new_failure_shape _ o fb h
      | true => simp [hr] at h
    · rw [if_neg heval] at h ⊢
      exact create_new_failure_shape _ o fb h

/-- C2: on every reachable state, a `process_user_feedback` run that reports
`success = false` carries an error description (`some` of the raised message)
and a fallback quest set that is exactly the classifier-derived single quest:
its length is 1 and its one quest is titled with the classifier's category
for the feedback text.  Producing that fallback set is `create_fallback_quest`,
a total pure function of the feedback content (no I/O in the embedding, none
in the source). -/
theorem process_failure_fallback_contract (s : SystemState) (o : StageOracle)
    (fb : UserFeedback) (hs : Reachable s)
    (hfail : (process_user_feedback s o fb).2.success = false) :
    (process_user_feedback s o fb).2.error = some o.err ∧
    (process_user_feedback s o fb).2.fallback_quest
      = some (create_fallback_quest fb.content) ∧
    (create_fallback_quest fb.content).length = 1 ∧
    (create_fallback_quest fb.content).map Quest.title
      = ["기본 " ++ determine_category fb.content ++ " 실천하기"] := by
  have hshape := process_failure_shape s o fb (reachable_system_ready s hs) hfail
  rw [hshape]
  exact ⟨rfl, rfl, rfl, rfl⟩

/-- Oracle injecting a failure at the similarity search stage. -/
def search_fail_oracle : StageOracle := { search_ok := false }

/-- Witness for C2 on a concrete failing search. -/
theorem process_failure_fallback_contract_witness :
    (process_user_feedback initState search_fail_oracle fb_neck).2.error
        = some search_fail_oracle.err ∧
    (process_user_feedback initState search_fail_oracle fb_neck).2.fallback_quest
      = some (create_fallback_quest fb_neck.content) ∧
    (create_fallback_quest fb_neck.content).length = 1 ∧
    (create_fallback_quest fb_neck.content).map Quest.title
      = ["기본 " ++ determine_category fb_neck.content ++ " 실천하기"] :=
  process_failure_fallback_contract initState search_fail_oracle fb_neck
    Reachable.init rfl

/-- C7 counterexample: the index–store equality fails already at the initial
state, which is reachable: the seeded neck document is held by the
SimilarityIndex (OpenSearch mock) but the DocumentStore (DynamoDB mock) starts
empty, so a document is indexed without being persisted. -/
theorem store_index_equality_counterexample :
    Reachable initState ∧
    initState.mock_documents.any
      (fun d => d.document_id == seed_health_doc.document_id) = true ∧
    initState.mock_storage.any
      (fun p => p.1 == seed_health_doc.document_id) = false :=
  ⟨Reachable.init, rfl, rfl⟩

/-- The search-time metadata writes do not change which identifiers the index
holds. -/
theorem annotate_preserves_id_any (query : String) (threshold : ℚ)
    (docs : List ExpertDocument) (k : String) :
    ((markAndCollect query threshold docs).1.any (fun d => d.document_id == k))
      = docs.any (fun d => d.document_id == k) := by
  rw [markAndCollect_fst_eq_map]
  induction docs with
  | nil => rfl
  | cons d ds ih =>
    simp only [List.map_cons, List.any_cons, ih]
    congr 1
    split_ifs <;> rfl

/-- Search does not change which identifiers the index holds. -/
theorem find_similar_preserves_id_any (docs : List ExpertDocument)
    (query : String) (threshold : ℚ) (limit : Nat) (k : String) :
    ((find_similar_documents docs query threshold limit).1.any
      (fun d => d.document_id == k)) = docs.any (fun d => d.document_id == k) :=
  annotate_preserves_id_any query threshold docs k

/-- A key present after a dict overwrite-or-append was present before or is
the inserted key. -/
theorem dictInsert_key_sub (storage : List (String × ExpertDocument))
    (k : String) (v : ExpertDocument) (key : String)
    (h : (dictInsert storage k v).any (fun p => p.1 == key) = true) :
    storage.any (fun p => p.1 == key) = true ∨ key = k := by
  unfold dictInsert at h
  split_ifs at h with hk
  · rw [List.any_eq_true] at h
    obtain ⟨p, hp, hkey⟩ := h
    rw [List.mem_map] at hp
    obtain ⟨q, hq, rfl⟩ := hp
    by_cases hqk : (q.1 == k) = true
    · rw [if_pos hqk] at hkey
      right
      have hk2 : k = key := by simpa using hkey
      exact hk2.symm
    · rw [if_neg hqk] at hkey
      left
      rw [List.any_eq_true]
      exact ⟨q, hq, hkey⟩
  · rw [List.any_eq_true] at h
    obtain ⟨p, hp, hkey⟩ := h
    rcases List.mem_append.mp hp with hp' | hp'
    · left
      rw [List.any_eq_true]
      exact ⟨p, hp', hkey⟩
    · right
      have hpk : p = (k, v) := by simpa using hp'
      subst hpk
      have hk2 : k = key := by simpa using hkey
      exact hk2.symm

/-- Invariant: every identifier persisted in the DynamoDB store has an entry
in the OpenSearch document list. -/
def StoreSubIndex (s : SystemState) : Prop :=
  ∀ key : String, s.mock_storage.any (fun p => p.1 == key) = true →
    s.mock_documents.any (fun d => d.document_id == key) = true

/-- When the indexing stage cannot fail, the synthesize path keeps every
persisted identifier indexed: the save and the index of the fresh document run
back to back. -/
theorem create_new_preserves_storeSubIndex (st : SystemState) (o : StageOracle)
    (fb : UserFeedback) (hidx : o.index_ok = true) (hs : StoreSubIndex st) :
    StoreSubIndex (create_new_expert_document_and_quest st o fb).1 := by
  unfold create_new_expert_document_and_quest save_expert_document index_document
  dsimp only
  split_ifs with h1 h2 h3 h4 h5
  · exact hs
  · exact hs
  · exact hs
  · rw [hidx] at h4
    simp at h4
  · intro key hkey
    rcases dictInsert_key_sub _ _ _ _ hkey with h' | h'
    · have := hs key h'
      simp [List.any_append, this]
    · subst h'
      simp [List.any_append]
  · intro key hkey
    rcases dictInsert_key_sub _ _ _ _ hkey with h' | h'
    · have := hs key h'
      simp [List.any_append, this]
    · subst h'
      simp [List.any_append]

/-- The reuse path (and its synthesize retry) keeps every persisted identifier
indexed, given the indexing stage cannot fail. -/
theorem generate_preserves_storeSubIndex (st : SystemState) (o : StageOracle)
    (docs : List ExpertDocument) (fb : UserFeedback) (hidx : o.index_ok = true)
    (hs : StoreSubIndex st) :
    StoreSubIndex (generate_quest_from_existing st o docs fb).1 := by
  unfold generate_quest_from_existing
  dsimp only
  split_ifs
  · exact create_new_preserves_storeSubIndex st o fb hidx hs
  · exact hs

/-- One processing step with a non-failing indexing stage preserves the
store-is-indexed invariant. -/
theorem process_preserves_storeSubIndex (s : SystemState) (o : StageOracle)
    (fb : UserFeedback) (hidx : o.index_ok = true) (hs : StoreSubIndex s) :
    StoreSubIndex (process_user_feedback s o fb).1 := by
  unfold process_user_feedback
  dsimp only
  split_ifs
  · exact hs
  · exact hs
  · apply generate_preserves_storeSubIndex _ o _ fb hidx
    intro key hkey
    rw [find_similar_preserves_id_any]
    exact hs key hkey
  · apply create_new_preserves_storeSubIndex _ o fb hidx
    intro key hkey
    rw [find_similar_preserves_id_any]
    exact hs key hkey

/-- C7 amended: the claimed index–store equality fails (see the counterexample:
the three seeded documents are indexed while the store starts empty); what
does hold is the inclusion: at every state reachable by runs in which the
indexing stage never fails, every identifier persisted in the DocumentStore is
also present in the SimilarityIndex.  (With a failure injected at the indexing
stage after a successful save, even the inclusion is lost, matching the
source's lack of compensation between the two steps.) -/
theorem store_subset_index_of_reachable (s : SystemState)
    (h : ReachableNoIndexFail s) :
    ∀ key : String, s.mock_storage.any (fun p => p.1 == key) = true →
      s.mock_documents.any (fun d => d.document_id == key) = true := by
  induction h with
  | init =>
    intro key hkey
    simp [initState] at hkey
  | step s o fb _ hidx ih => exact process_preserves_storeSubIndex s o fb hidx ih

/-- The all-stages-succeed oracle. -/
def ok_oracle : StageOracle := {}

/-- Feedback matching nothing in the seeded corpus (all scores fall below the
threshold), driving the synthesize path. -/
def fb_savings : UserFeedback :=
  { content := "저축을 늘리고 싶어요", timestamp := "2024-12-14T12:00:00" }

/-- Witness for the amended C7 after one synthesize run that persists the new
finance document. -/
theorem store_subset_index_of_reachable_witness :
    ((process_user_feedback initState ok_oracle fb_savings).1.mock_documents.any
      (fun d => d.document_id == "finance_20241214_120000")) = true :=
  store_subset_index_of_reachable _
    (ReachableNoIndexFail.step initState ok_oracle fb_savings
      ReachableNoIndexFail.init rfl)
    ("finance_20241214_120000") (by decide)

/-- Every document in a list carries one of the three known categories. -/
def TopicsKnown (docs : List ExpertDocument) : Prop :=
  ∀ d ∈ docs, d.topic = "health" ∨ d.topic = "finance" ∨ d.topic = "skincare"

/-- The orchestrator's classifier is closed over the three categories (any
non-matching text defaults to health). -/
theorem determine_category_known (content : String) :
    determine_category content = "health" ∨
    determine_category content = "finance" ∨
    determine_category content = "skincare" := by
  unfold determine_category
  dsimp only
  split_ifs
  · exact Or.inl rfl
  · exact Or.inr (Or.inl rfl)
  · exact Or.inr (Or.inr rfl)
  · exact Or.inl rfl

/-- The synthesizer's classifier is closed over the three categories (any
non-matching text defaults to health). -/
theorem strands_category_known (content : String) :
    strands_determine_category content = "health" ∨
    strands_determine_category content = "finance" ∨
    strands_determine_category content = "skincare" := by
  unfold strands_determine_category
  dsimp only
  split_ifs
  · exact Or.inl rfl
  · exact Or.inr (Or.inl rfl)
  · exact Or.inr (Or.inr rfl)
  · exact Or.inl rfl

/-- The search loop's store update preserves document categories. -/
theorem markAndCollect_fst_topics (query : String) (threshold : ℚ) :
    ∀ docs : List ExpertDocument, TopicsKnown docs →
      TopicsKnown (markAndCollect query threshold docs).1 := by
  intro docs
  induction docs with
  | nil => intro _ d hd; simp [markAndCollect] at hd
  | cons d ds ih =>
    intro h x hx
    have hds : TopicsKnown ds := fun y hy => h y (List.mem_cons_of_mem _ hy)
    simp only [markAndCollect] at hx
    split_ifs at hx
    · rcases List.mem_cons.mp hx with hx0 | hx'
      · rw [hx0]; exact h d (List.mem_cons_self _ _)
      · exact ih hds x hx'
    · rcases List.mem_cons.mp hx with hx0 | hx'
      · rw [hx0]; exact h d (List.mem_cons_self _ _)
      · exact ih hds x hx'

/-- The search loop's result list only holds (annotated) documents from the
store, so it preserves document categories. -/
theorem markAndCollect_snd_topics (query : String) (threshold : ℚ) :
    ∀ docs : List ExpertDocument, TopicsKnown docs →
      TopicsKnown (markAndCollect query threshold docs).2 := by
  intro docs
  induction docs with
  | nil => intro _ d hd; simp [markAndCollect] at hd
  | cons d ds ih =>
    intro h x hx
    have hds : TopicsKnown ds := fun y hy => h y (List.mem_cons_of_mem _ hy)
    simp only [markAndCollect] at hx
    split_ifs at hx
    · rcases List.mem_cons.mp hx with hx0 | hx'
      · rw [hx0]; exact h d (List.mem_cons_self _ _)
      · exact ih hds x hx'
    · exact ih hds x hx

/-- Members of a stable insertion are the inserted element or members of the
base list. -/
theorem mem_insertBySimDesc (d x : ExpertDocument) (l : List ExpertDocument)
    (hx : x ∈ insertBySimDesc d l) : x = d ∨ x ∈ l := by
  induction l with
  | nil => simpa [insertBySimDesc] using hx
  | cons e es ih =>
    simp only [insertBySimDesc] at hx
    split_ifs at hx
    · rcases List.mem_cons.mp hx with rfl | hx'
      · exact Or.inl rfl
      · exact Or.inr hx'
    · rcases List.mem_cons.mp hx with rfl | hx'
      · exact Or.inr (List.mem_cons_self _ _)
      · rcases ih hx' with h | h
        · exact Or.inl h
        · exact Or.inr (List.mem_cons_of_mem _ h)

/-- Sorting yields no new members. -/
theorem mem_sortBySimDesc (l : List ExpertDocument) (x : ExpertDocument)
    (hx : x ∈ sortBySimDesc l) : x ∈ l := by
  suffices h : ∀ (l' : List ExpertDocument) (acc : List ExpertDocument),
      x ∈ l'.foldl (fun acc d => insertBySimDesc d acc) acc → x ∈ acc ∨ x ∈ l' by
    rcases h l [] hx with h' | h'
    · simp at h'
    · exact h'
  intro l'
  induction l' with
  | nil => intro acc h; exact Or.inl h
  | cons d ds ih =>
    intro acc h
    rcases ih (insertBySimDesc d acc) h with h' | h'
    · rcases mem_insertBySimDesc d x acc h' with h'' | h''
      · exact Or.inr (h'' ▸ List.mem_cons_self _ _)
      · exact Or.inl h''
    · exact Or.inr (List.mem_cons_of_mem _ h')

/-- Search results keep the known-category property of the store. -/
theorem find_similar_results_topics (docs : List ExpertDocument)
    (query : String) (threshold : ℚ) (limit : Nat) (h : TopicsKnown docs) :
    TopicsKnown (find_similar_documents docs query threshold limit).2 := by
  intro x hx
  have h2 : TopicsKnown (markAndCollect query threshold docs).2 :=
    markAndCollect_snd_topics query threshold docs h
  have hx' : x ∈ sortBySimDesc (markAndCollect query threshold docs).2 :=
    List.take_subset _ _ hx
  exact h2 x (mem_sortBySimDesc _ x hx')

/-- The synthesize path keeps every indexed document's category known: the
fresh document is tagged with the synthesizer classifier's output. -/
theorem create_new_preserves_topics (st : SystemState) (o : StageOracle)
    (fb : UserFeedback) (h : TopicsKnown st.mock_documents) :
    TopicsKnown (create_new_expert_document_and_quest st o fb).1.mock_documents := by
  unfold create_new_expert_document_and_quest index_document
  dsimp only
  split_ifs
  · exact h
  · exact h
  · exact h
  · exact h
  · intro x hx
    rcases List.mem_append.mp hx with hx' | hx'
    · exact h x hx'
    · have hx2 : x = create_expert_document fb
          (search_trusted_sources (determine_category fb.content))
          o.now_stamp o.now_iso := by simpa using hx'
      subst hx2
      exact strands_category_known fb.content
  · intro x hx
    rcases List.mem_append.mp hx with hx' | hx'
    · exact h x hx'
    · have hx2 : x = create_expert_document fb
          (search_trusted_sources (determine_category fb.content))
          o.now_stamp o.now_iso := by simpa using hx'
      subst hx2
      exact strands_category_known fb.content

/-- The reuse path (and its synthesize retry) keeps every indexed document's
category known. -/
theorem generate_preserves_topics (st : SystemState) (o : StageOracle)
    (docs : List ExpertDocument) (fb : UserFeedback)
    (h : TopicsKnown st.mock_documents) :
    TopicsKnown (generate_quest_from_existing st o docs fb).1.mock_documents := by
  unfold generate_quest_from_existing
  dsimp only
  split_ifs
  · exact create_new_preserves_topics st o fb h
  · exact h

/-- One processing step keeps every indexed document's category known. -/
theorem process_preserves_topics (s : SystemState) (o : StageOracle)
    (fb : UserFeedback) (h : TopicsKnown s.mock_documents) :
    TopicsKnown (process_user_feedback s o fb).1.mock_documents := by
  unfold process_user_feedback
  dsimp only
  split_ifs
  · exact h
  · exact h
  · exact generate_preserves_topics _ o _ fb
      (markAndCollect_fst_topics fb.content (pct 70) s.mock_documents h)
  · exact create_new_preserves_topics _ o fb
      (markAndCollect_fst_topics fb.content (pct 70) s.mock_documents h)

/-- Every reachable state indexes only documents carrying one of the three
known categories (seeded or synthesized). -/
theorem reachable_topics_known (s : SystemState) (h : Reachable s) :
    TopicsKnown s.mock_documents := by
  induction h with
  | init =>
    intro d hd
    simp only [initState, List.mem_cons, List.not_mem_nil, or_false] at hd
    rcases hd with rfl | rfl | rfl
    · exact Or.inl rfl
    · exact Or.inr (Or.inl rfl)
    · exact Or.inr (Or.inr rfl)
  | step s o fb _ ih => exact process_preserves_topics s o fb ih

/-- The quest templates for a known category hold exactly 3 quests. -/
theorem generate_mock_quests_known_len (category : String)
    (h : category = "health" ∨ category = "finance" ∨ category = "skincare") :
    (generate_mock_quests category).length = 3 := by
  rcases h with rfl | rfl | rfl <;> rfl

/-- A successful synthesize run returns exactly 3 quests. -/
theorem create_new_success_quests (st : SystemState) (o : StageOracle)
    (fb : UserFeedback)
    (hsucc : (create_new_expert_document_and_quest st o fb).2.success = true) :
    (create_new_expert_document_and_quest st o fb).2.quests.length = 3 := by
  unfold create_new_expert_document_and_quest at hsucc ⊢
  dsimp only at hsucc ⊢
  split_ifs at hsucc ⊢ <;>
    first
      | exact generate_mock_quests_known_len _ (strands_category_known fb.content)
      | simp [fallbackResult] at hsucc

/-- A successful reuse run (over gate-passing, known-category documents)
returns exactly 3 quests. -/
theorem generate_quest_success_quests (st : SystemState) (o : StageOracle)
    (docs : List ExpertDocument) (fb : UserFeedback)
    (hne : evaluate_similarity docs = true) (htop : TopicsKnown docs)
    (hsucc : (generate_quest_from_existing st o docs fb).2.success = true) :
    (generate_quest_from_existing st o docs fb).2.quests.length = 3 := by
  unfold generate_quest_from_existing at hsucc ⊢
  dsimp only at hsucc ⊢
  split_ifs at hsucc ⊢
  · exact create_new_success_quests _ o fb hsucc
  · cases docs with
    | nil => simp [evaluate_similarity] at hne
    | cons d rest =>
      exact generate_mock_quests_known_len d.topic (htop d (List.mem_cons_self d rest))

/-- C10: category classification is closed over the three categories on both
classifiers, every document indexed at a reachable state carries one of them,
and consequently the unknown-category single-quest branch of the generator is
unreachable through the pipeline: every successful `process_user_feedback` run
from a reachable state returns exactly 3 quests. -/
theorem pipeline_success_three_quests (s : SystemState) (o : StageOracle)
    (fb : UserFeedback) (hs : Reachable s)
    (hsucc : (process_user_feedback s o fb).2.success = true) :
    (process_user_feedback s o fb).2.quests.length = 3 ∧
    (determine_category fb.content = "health" ∨
      determine_category fb.content = "finance" ∨
      determine_category fb.content = "skincare") ∧
    (strands_determine_category fb.content = "health" ∨
      strands_determine_category fb.content = "finance" ∨
      strands_determine_category fb.content = "skincare") ∧
    TopicsKnown s.mock_documents := by
  have htop := reachable_topics_known s hs
  have hready := reachable_system_ready s hs
  refine ⟨?_, determine_category_known fb.content,
    strands_category_known fb.content, htop⟩
  cases hsearch : o.search_ok with
  | false => simp [process_user_feedback, hready, hsearch, fallbackResult] at hsucc
  | true =>
    simp only [process_user_feedback, hready, hsearch, Bool.not_true,
      Bool.not_false, Bool.false_eq_true, if_false, if_true] at hsucc ⊢
    by_cases heval :
        evaluate_similarity
          (find_similar_documents s.mock_documents fb.content (pct 70) 5).2 = true
    · rw [if_pos heval] at hsucc ⊢
      exact generate_quest_success_quests _ o _ fb heval
        (find_similar_results_topics s.mock_documents fb.content (pct 70) 5 htop)
        hsucc
    · rw [if_neg heval] at hsucc ⊢
      exact create_new_success_quests _ o fb hsucc

/-- Witness for C10 on the initial state with a reuse-path feedback. -/
theorem pipeline_success_three_quests_witness :
    (process_user_feedback initState ok_oracle fb_neck).2.quests.length = 3 ∧
    (determine_category fb_neck.content = "health" ∨
      determine_category fb_neck.content = "finance" ∨
      determine_category fb_neck.content = "skincare") ∧
    (strands_determine_category fb_neck.content = "health" ∨
      strands_determine_category fb_neck.content = "finance" ∨
      strands_determine_category fb_neck.content = "skincare") ∧
    TopicsKnown initState.mock_documents :=
  pipeline_success_three_quests initState ok_oracle fb_neck Reachable.init rfl
